import Mathlib

/-!
Verification development for the IoT-WebUI nutrition backend
(`src/backend/nutritionDB.py`, `src/backend/app.py`).

The Python code is shallowly embedded as follows:
* JSON / Python values that flow through the handlers are modelled by `JVal`
  (`None`, booleans, integers, strings, and JSON objects as association
  lists).  Floats and arrays never occur in the behaviours under study and
  are omitted.
* SQLite tables are modelled as Lean lists of rows; `INSERT OR REPLACE`
  keyed on the `barcode` primary key is modelled by removing the old row for
  that key and consing the new one.
* The external Open Food Facts HTTP call is modelled by an explicit
  `HttpResult` argument describing what the network returned; the number of
  external calls performed is threaded through the results.
* Uncaught Python exceptions are modelled with `Except PyErr`:
  `requests.Response.json()` on a body that is not valid JSON raises
  (`jsonError`), and `.get` on a non-dict value raises (`attrError`).
  `requests.get` failures (`requests.RequestException`, which includes
  timeouts) are caught by the source and are therefore *not* errors of the
  embedding; they are part of `HttpResult`.
-/

mutual

/-- Python/JSON values as they appear in request bodies, HTTP payloads and
SQLite cells.  `jobj` is a JSON object; its bindings are given by `JFields`.
Floats and arrays never occur in the behaviours under study and are
omitted. -/
inductive JVal where
  | null
  | jbool (b : Bool)
  | jint (n : Int)
  | jstr (s : String)
  | jobj (fields : JFields)

/-- The (ordered, duplicate-free) key–value bindings of a JSON object. -/
inductive JFields where
  | nil
  | cons (k : String) (v : JVal) (rest : JFields)

end

/-- Lookup of a key among object bindings (dict access). -/
def jfLookup : JFields → String → Option JVal
  | .nil, _ => none
  | .cons k v rest, key => if k == key then some v else jfLookup rest key

/-- Convenience constructor turning an association list into object
bindings. -/
def toJFields : List (String × JVal) → JFields
  | [] => .nil
  | (k, v) :: rest => .cons k v (toJFields rest)

/-- Python truthiness (`if v:`) for the modelled values: `None`, `False`,
`0`, `""` and the empty dict are falsy, everything else is truthy. -/
def truthy : JVal → Bool
  | .null => false
  | .jbool b => b
  | .jint n => n != 0
  | .jstr s => s != ""
  | .jobj .nil => false
  | .jobj (.cons _ _ _) => true

/-- Python `a or b`: `a` if truthy, else `b`. -/
def pyOr (a b : JVal) : JVal := if truthy a then a else b

/-- Python `v is None`. -/
def isNull : JVal → Bool
  | .null => true
  | _ => false

/-- Python `d.get(k, default)` on a JSON object (association-list lookup;
the first binding wins, as dict keys are unique). -/
def dGet (fields : List (String × JVal)) (k : String) (default : JVal) : JVal :=
  match fields.find? (fun p => p.1 == k) with
  | some p => p.2
  | none => default

/-- Python `d.get(k)` (missing key yields `None`). -/
def dGet? (fields : List (String × JVal)) (k : String) : JVal :=
  dGet fields k .null

/-- Whether a JSON object carries the key `k` at all (distinguishing an
absent key from a key bound to JSON `null`). -/
def dHasKey (fields : List (String × JVal)) (k : String) : Bool :=
  (fields.find? (fun p => p.1 == k)).isSome

/-- Whether a JSON value is an object carrying the key `k`. -/
def jHasKey : JVal → String → Bool
  | .jobj fields, k => (jfLookup fields k).isSome
  | _, _ => false

/-- Uncaught Python exceptions of the embedded code: `attrError` models
`AttributeError` from calling `.get` on a non-dict, `jsonError` models the
exception raised by `requests.Response.json()` on an unparseable body. -/
inductive PyErr where
  | attrError
  | jsonError
  deriving DecidableEq

/-- Python `v.get(k)` where `v` may not be a dict: raises `AttributeError`
unless `v` is an object; a missing key yields `None`. -/
def pyGetAttr (v : JVal) (k : String) : Except PyErr JVal :=
  match v with
  | .jobj fields => .ok ((jfLookup fields k).getD .null)
  | _ => .error .attrError

/-- Whitespace characters stripped by Python `str.strip()` (ASCII subset,
which covers every behaviour exercised here). -/
def isPyWs (c : Char) : Bool :=
  c == ' ' || c == '\t' || c == '\n' || c == '\x0d' || c == '\x0b' || c == '\x0c'

/-- Python `str.strip()`: remove leading and trailing whitespace. -/
def pyStrip (s : String) : String :=
  String.mk (((s.data.dropWhile isPyWs).reverse.dropWhile isPyWs).reverse)

/-- Python `repr` of a string (default single-quoted form; source quote
characters never occur in the behaviours under study, so escaping is not
modelled). -/
def pyReprStr (s : String) : String := "\x27" ++ s ++ "\x27"

mutual

/-- Python `repr(v)` for the modelled values; on the scalar values it
agrees with `str` except on strings, which are quoted. -/
def pyRepr : JVal → String
  | .null => "None"
  | .jbool b => if b then "True" else "False"
  | .jint n => toString n
  | .jstr s => pyReprStr s
  | .jobj fields => "\x7b" ++ ", ".intercalate (pyReprFields fields) ++ "\x7d"

/-- The `repr(key): repr(value)` entries of a dict. -/
def pyReprFields : JFields → List String
  | .nil => []
  | .cons k v rest => (pyReprStr k ++ ": " ++ pyRepr v) :: pyReprFields rest

end

/-- Python `str(v)` for the modelled values: `str(None) = "None"`,
`str(True) = "True"`, `str(0) = "0"`, strings unchanged, and dicts fall
back to `repr`. -/
def pyStr : JVal → String
  | .jstr s => s
  | v => pyRepr v

/-- One row of the `products` table (the product cache), nine columns as
created by `init_db`.  A row is the nine-key dict handled by
`upsert_product` / returned by `get_cached_product`. -/
structure ProductRow where
  barcode : String
  name : JVal
  calories : JVal
  protein : JVal
  carbs : JVal
  fat : JVal
  image_url : JVal
  source : JVal
  updated_at : JVal

/-- What the network returned for the Open Food Facts request:
`reqError` is a `requests.RequestException` (connection failure, timeout);
otherwise a response with a status code, a `content-type` header value
(`""` when the header is absent, mirroring `r.headers.get("content-type", "")`)
and a body, where `none` stands for a body that is not valid JSON. -/
inductive HttpResult where
  | reqError
  | response (status : Nat) (contentType : String) (body : Option JVal)

/-- Character-list test that `pat` is a prefix of `s` (byte order on the
ASCII strings involved), used for `startswith("application/json")`. -/
def charPfx : List Char → List Char → Bool
  | [], _ => true
  | _ :: _, [] => false
  | x :: xs, y :: ys => x == y && charPfx xs ys

/-- The `content-type` check of `fetch_openfoodfacts`:
`r.headers.get("content-type", "").startswith("application/json")`. -/
def ctIsJson (ct : String) : Bool :=
  charPfx "application/json".data ct.data

/-- The `payload = r.json() if r.headers.get("content-type", "").startswith(
"application/json") else {}` step of `fetch_openfoodfacts`: `r.json()` on a
body that is not valid JSON raises. -/
def readPayload (contentType : String) (body : Option JVal) : Except PyErr JVal :=
  if ctIsJson contentType then
    match body with
    | some j => .ok j
    | none => .error .jsonError
  else .ok (.jobj .nil)

/-- Python `v.get(k1) or v.get(k2)`: the second lookup is only evaluated
when the first value is falsy. -/
def pyGetOrAttr (v : JVal) (k1 k2 : String) : Except PyErr JVal := do
  let a ← pyGetAttr v k1
  if truthy a then pure a else pyGetAttr v k2

/-- Embedding of `fetch_openfoodfacts` (nutritionDB.py lines 87–126).
`now` stands for `datetime.utcnow().isoformat()`.  Returns `ok none` for a
not-found / failed lookup, `ok (some row)` for a resolved product, and
`error e` when the Python code would raise an uncaught exception (notably
`r.json()` on a 200 response with JSON content type but an unparseable
body, which the source does not guard). -/
def fetch_openfoodfacts (barcode : String) (ext : HttpResult) (now : String) :
    Except PyErr (Option ProductRow) :=
  match ext with
  | .reqError => .ok none
  | .response status contentType body =>
    if status != 200 then .ok none
    else do
      let payload ← readPayload contentType body
      let product := pyOr (← pyGetAttr payload "product") (JVal.jobj .nil)
      let nutr := pyOr (← pyGetAttr product "nutriments") (JVal.jobj .nil)
      let name ← pyGetOrAttr product "product_name" "product_name_en"
      let calories ← pyGetAttr nutr "energy-kcal_100g"
      let protein ← pyGetAttr nutr "proteins_100g"
      let carbs ← pyGetAttr nutr "carbohydrates_100g"
      let fat ← pyGetAttr nutr "fat_100g"
      let image_url ← pyGetOrAttr product "image_front_url" "image_url"
      let result : ProductRow :=
        ⟨barcode, name, calories, protein, carbs, fat, image_url,
          .jstr "openfoodfacts", .jstr now⟩
      if truthy name then pure (some result) else pure none

/-- Embedding of `get_cached_product` (lines 129–135): `SELECT * FROM
products WHERE barcode=?` on the cache, returning the row as a dict. -/
def get_cached_product (products : List ProductRow) (barcode : String) :
    Option ProductRow :=
  products.find? (fun r => r.barcode == barcode)

/-- Embedding of `upsert_product` (lines 138–161): `INSERT OR REPLACE`
keyed on the `barcode` primary key replaces the whole previous row for that
barcode with the nine given column values. -/
def upsert_product (product : ProductRow) (products : List ProductRow) :
    List ProductRow :=
  product :: products.filter (fun r => r.barcode != product.barcode)

/-- Embedding of `lookup_product_local_first` (lines 163–173): cache-first
resolution.  The result carries the resolved product (or `none`), the
products table after the call, and the number of external HTTP calls
performed (a cached row and a fetched row are non-empty dicts, hence truthy,
so `if cached:` / `if fetched:` are their `isSome` tests). -/
def lookup_product_local_first (barcode : String) (products : List ProductRow)
    (ext : HttpResult) (now : String) :
    Except PyErr (Option ProductRow × List ProductRow × Nat) :=
  match get_cached_product products barcode with
  | some cached => .ok (some cached, products, 0)
  | none =>
    match fetch_openfoodfacts barcode ext now with
    | .error e => .error e
    | .ok (some fetched) => .ok (some fetched, upsert_product fetched products, 1)
    | .ok none => .ok (none, products, 1)

/-- One row of the `scans` table, as created by `init_db` (id assigned by
`AUTOINCREMENT`, timestamp, barcode, six nullable payload columns). -/
structure ScanRow where
  id : Nat
  ts : String
  barcode : String
  name : JVal
  calories : JVal
  protein : JVal
  carbs : JVal
  fat : JVal
  image_url : JVal

/-- The persistent state of the service: the two SQLite tables. -/
structure Store where
  scans : List ScanRow
  products : List ProductRow

/-- Observable outcome of one `POST /api/scan` request: HTTP status,
response JSON, the store after the request, plus instrumentation counting
the external HTTP calls and the `lookup_product_local_first` invocations
performed while handling it. -/
structure ScanOutcome where
  status : Nat
  body : JVal
  store : Store
  extCalls : Nat
  resolverCalls : Nat

/-- The auto-fill trigger of `add_scan` (nutritionDB.py line 220): all six
client-provided values extracted with `data.get(...)` are Python `None`
(which covers both an absent key and a key bound to JSON `null`). -/
def sixNull (data : List (String × JVal)) : Bool :=
  isNull (dGet? data "name") && isNull (dGet? data "calories") &&
  isNull (dGet? data "protein") && isNull (dGet? data "carbs") &&
  isNull (dGet? data "fat") && isNull (dGet? data "image_url")

/-- Barcode extraction of `add_scan` (line 205):
`str(data.get("barcode", "")).strip()`. -/
def scanBarcode (data : List (String × JVal)) : String :=
  pyStrip (pyStr (dGet data "barcode" (.jstr "")))

/-- Embedding of the `POST /api/scan` handler `add_scan`
(nutritionDB.py lines 197–243).  The request body is modelled as a JSON
object; `now` stands for `datetime.utcnow().isoformat()`; `ext` describes
what the network would return were the external source consulted.
`lastrowid` of the append-only autoincrement table is `length + 1`.
An `error e` result is an uncaught exception escaping the handler. -/
def add_scan (data : List (String × JVal)) (st : Store) (ext : HttpResult)
    (now : String) : Except PyErr ScanOutcome :=
  let barcode := scanBarcode data
  if barcode == "" then
    .ok ⟨400, .jobj (toJFields [("ok", .jbool false), ("error", .jstr "barcode is required")]),
      st, 0, 0⟩
  else
    let ts := now
    let insert := fun (name calories protein carbs fat image_url : JVal)
        (products : List ProductRow) (extCalls resolverCalls : Nat) =>
      let id := st.scans.length + 1
      let row : ScanRow := ⟨id, ts, barcode, name, calories, protein, carbs, fat, image_url⟩
      Except.ok (⟨200, .jobj (toJFields [("ok", .jbool true), ("id", .jint id), ("ts", .jstr ts)]),
        ⟨st.scans ++ [row], products⟩, extCalls, resolverCalls⟩ : ScanOutcome)
    if sixNull data then
      match lookup_product_local_first barcode st.products ext now with
      | .error e => .error e
      | .ok (some product, products, extCalls) =>
        insert product.name product.calories product.protein product.carbs
          product.fat product.image_url products extCalls 1
      | .ok (none, products, extCalls) =>
        insert (dGet? data "name") (dGet? data "calories") (dGet? data "protein")
          (dGet? data "carbs") (dGet? data "fat") (dGet? data "image_url")
          products extCalls 1
    else
      insert (dGet? data "name") (dGet? data "calories") (dGet? data "protein")
        (dGet? data "carbs") (dGet? data "fat") (dGet? data "image_url")
        st.products 0 0

/-- Byte-order (BINARY collation) comparison on the text of two SQLite
cells, as `ORDER BY ts` compares `TEXT` values. -/
def charLe : List Char → List Char → Bool
  | [], _ => true
  | _ :: _, [] => false
  | x :: xs, y :: ys => if x = y then charLe xs ys else decide (x < y)

/-- Text comparison on timestamps. -/
def tsLe (a b : String) : Bool := charLe a.data b.data

/-- Descending `ORDER BY ts DESC` comparison on scan rows. -/
def scanDesc (a b : ScanRow) : Bool := tsLe b.ts a.ts

/-- SQLite `substr(ts, 1, 10)`: the first ten characters. -/
def substr10 (ts : String) : String := String.mk (ts.data.take 10)

/-- Insert a row into a list kept in descending-timestamp order. -/
def insertDesc (r : ScanRow) : List ScanRow → List ScanRow
  | [] => [r]
  | x :: xs => if scanDesc r x then r :: x :: xs else x :: insertDesc r xs

/-- Sort rows by timestamp descending (`ORDER BY ts DESC` under BINARY
collation). -/
def sortDesc : List ScanRow → List ScanRow
  | [] => []
  | x :: xs => insertDesc x (sortDesc xs)

/-- Embedding of the `GET /api/scans` handler `list_scans`
(nutritionDB.py lines 246–268).  `qdate` is the optional `date` query
parameter; Python's `if q_date:` makes an empty-string parameter take the
unfiltered branch.  The SQL is `SELECT * ... [WHERE substr(ts,1,10) = ?]
ORDER BY ts DESC LIMIT 200`. -/
def list_scans (scans : List ScanRow) (qdate : Option String) : List ScanRow :=
  match qdate with
  | some d =>
    if d == "" then (sortDesc scans).take 200
    else (sortDesc (scans.filter (fun r => substr10 r.ts == d))).take 200
  | none => (sortDesc scans).take 200

/-- Modelled from the spec: the Event Broadcaster and the `GET /api/stream`
endpoint are not present under `src/` (neither `app.py` nor
`nutritionDB.py` contains any streaming or queue code).  Following spec
§4.3, the broadcaster keeps one independent event queue per subscriber,
each fed by the same `publish` call (fan-out).  An event is the barcode it
carries (ScanEvent has a single `barcode` field, §3). -/
structure Broadcaster where
  queues : List (List String)

/-- Modelled from the spec (§4.3): `subscribe()` registers a new subscriber
with a fresh empty queue and returns its index. -/
def subscribe (b : Broadcaster) : Broadcaster × Nat :=
  (⟨b.queues ++ [[]]⟩, b.queues.length)

/-- Modelled from the spec (§4.3): `publish(event)` appends the event to
every currently-registered subscriber queue. -/
def publish (event : String) (b : Broadcaster) : Broadcaster :=
  ⟨b.queues.map (fun q => q ++ [event])⟩

/-- Modelled from the spec (§4.2): the two effects a `record(...)` call
performs against shared state, in order. -/
inductive RecEff where
  | persist (row : ScanRow)
  | publishEv (barcode : String)

/-- Modelled from the spec (§4.2): the effect trace of a successful
`record(...)` — durable persistence first, then publication of a
ScanEvent carrying the scan's barcode. -/
def record_trace (row : ScanRow) : List RecEff :=
  [.persist row, .publishEv row.barcode]

/-- Apply one recorded effect to the shared state. -/
def applyEff (e : RecEff) (sb : Store × Broadcaster) : Store × Broadcaster :=
  match e with
  | .persist row => (⟨sb.1.scans ++ [row], sb.1.products⟩, sb.2)
  | .publishEv barcode => (sb.1, publish barcode sb.2)

/-- Run an effect trace against the shared state. -/
def runTrace (tr : List RecEff) (sb : Store × Broadcaster) : Store × Broadcaster :=
  tr.foldl (fun acc e => applyEff e acc) sb

/-- The Open Food Facts payload of the spec's §8 scenario for barcode
`012345`. -/
def scenPayload : JVal :=
  .jobj (toJFields [("product", .jobj (toJFields [("product_name", .jstr "Test Bar"),
    ("nutriments", .jobj (toJFields [("energy-kcal_100g", .jint 200),
      ("proteins_100g", .jint 5), ("carbohydrates_100g", .jint 20),
      ("fat_100g", .jint 8)]))]))])

/-- A successful external response carrying `scenPayload`. -/
def scenResp : HttpResult := .response 200 "application/json" (some scenPayload)

/-- The product row `fetch_openfoodfacts` normalizes `scenPayload` to (at
timestamp `"T"`). -/
def scenRow : ProductRow :=
  ⟨"012345", .jstr "Test Bar", .jint 200, .jint 5, .jint 20, .jint 8,
    .null, .jstr "openfoodfacts", .jstr "T"⟩

/-- An external response that is HTTP 200 with a JSON content type but a
body that is not valid JSON (`r.json()` raises on it). -/
def malformedResp : HttpResult := .response 200 "application/json" none

/-- Sample scan rows over two days, used to instantiate the history
queries. -/
def rowA : ScanRow := ⟨1, "2024-01-01T10:00:00", "a", .null, .null, .null, .null, .null, .null⟩

/-- Second sample row, later on the same day as `rowA`. -/
def rowB : ScanRow := ⟨2, "2024-01-01T12:00:00", "b", .null, .null, .null, .null, .null, .null⟩

/-- Third sample row, on the following day. -/
def rowC : ScanRow := ⟨3, "2024-01-02T09:00:00", "c", .null, .null, .null, .null, .null, .null⟩

/-- A sample scans table, deliberately out of timestamp order. -/
def scansFx : List ScanRow := [rowA, rowC, rowB]

/-! Helper lemmas. -/

theorem except_bind_ok {ε α β : Type} {x : Except ε α} {f : α → Except ε β} {r : β}
    (h : x >>= f = .ok r) : ∃ a, x = .ok a ∧ f a = .ok r := by
  cases x with
  | error e => exact absurd h (by simp [Bind.bind, Except.bind])
  | ok a => exact ⟨a, rfl, h⟩

theorem fetch_ok_some_barcode {B : String} {ext : HttpResult} {now : String} {e : ProductRow}
    (h : fetch_openfoodfacts B ext now = .ok (some e)) : e.barcode = B := by
  cases ext with
  | reqError => simp [fetch_openfoodfacts] at h
  | response status ct body =>
    simp only [fetch_openfoodfacts] at h
    split at h
    · exact absurd h (by simp)
    · obtain ⟨payload, -, h⟩ := except_bind_ok h
      obtain ⟨pv, -, h⟩ := except_bind_ok h
      obtain ⟨nv, -, h⟩ := except_bind_ok h
      obtain ⟨name, -, h⟩ := except_bind_ok h
      obtain ⟨calories, -, h⟩ := except_bind_ok h
      obtain ⟨protein, -, h⟩ := except_bind_ok h
      obtain ⟨carbs, -, h⟩ := except_bind_ok h
      obtain ⟨fat, -, h⟩ := except_bind_ok h
      obtain ⟨image_url, -, h⟩ := except_bind_ok h
      split at h
      · cases h; rfl
      · exact absurd h (by simp [pure, Except.pure])

theorem get_upsert_self (E : ProductRow) (products : List ProductRow) :
    get_cached_product (upsert_product E products) E.barcode = some E := by
  unfold get_cached_product upsert_product
  exact List.find?_cons_of_pos _ (by simp)

theorem find?_filter_other {b c : String} (hb : b ≠ c) (l : List ProductRow) :
    (l.filter (fun r => r.barcode != c)).find? (fun r => r.barcode == b) =
    l.find? (fun r => r.barcode == b) := by
  induction l with
  | nil => rfl
  | cons r rs ih =>
    by_cases hr : r.barcode = b
    · rw [List.filter_cons_of_pos (by simp [hr]; exact hb)]
      rw [List.find?_cons_of_pos _ (by simp [hr]), List.find?_cons_of_pos _ (by simp [hr])]
    · by_cases hc : r.barcode = c
      · rw [List.filter_cons_of_neg (by simp [hc])]
        rw [List.find?_cons_of_neg _ (by simp [hr])]
        exact ih
      · rw [List.filter_cons_of_pos (by simp [hc])]
        rw [List.find?_cons_of_neg _ (by simp [hr]), List.find?_cons_of_neg _ (by simp [hr])]
        exact ih

theorem get_upsert_other {b : String} (E : ProductRow) (products : List ProductRow)
    (hb : b ≠ E.barcode) :
    get_cached_product (upsert_product E products) b = get_cached_product products b := by
  unfold get_cached_product upsert_product
  rw [List.find?_cons_of_neg _ (by simp; exact fun hh => hb hh.symm)]
  exact find?_filter_other hb products

/-! Claim theorems. -/

/-- C6: for every product entry `E` and prior cache, `upsert_product E`
followed by `get_cached_product` on `E`'s barcode returns exactly `E` (the
whole nine-column row, fully replacing any previous entry for that
barcode), while lookups of every other barcode are unchanged. -/
theorem upsert_get_roundtrip (E : ProductRow) (products : List ProductRow) :
    get_cached_product (upsert_product E products) E.barcode = some E ∧
    ∀ b, b ≠ E.barcode →
      get_cached_product (upsert_product E products) b = get_cached_product products b :=
  ⟨get_upsert_self E products, fun _ hb => get_upsert_other E products hb⟩

/-- Witness for C6 at a concrete cache holding a previous entry for the
same barcode and one for another barcode. -/
theorem upsert_get_roundtrip_witness :
    get_cached_product (upsert_product scenRow
      [⟨"012345", .jstr "Old", .null, .null, .null, .null, .null, .null, .null⟩,
       ⟨"99", .jstr "Other", .null, .null, .null, .null, .null, .null, .null⟩])
      "012345" = some scenRow ∧
    get_cached_product (upsert_product scenRow
      [⟨"012345", .jstr "Old", .null, .null, .null, .null, .null, .null, .null⟩,
       ⟨"99", .jstr "Other", .null, .null, .null, .null, .null, .null, .null⟩])
      "99" = get_cached_product
      [⟨"012345", .jstr "Old", .null, .null, .null, .null, .null, .null, .null⟩,
       ⟨"99", .jstr "Other", .null, .null, .null, .null, .null, .null, .null⟩] "99" := by
  have h := upsert_get_roundtrip scenRow
    [⟨"012345", .jstr "Old", .null, .null, .null, .null, .null, .null, .null⟩,
     ⟨"99", .jstr "Other", .null, .null, .null, .null, .null, .null, .null⟩]
  exact ⟨h.1, h.2 "99" (by decide)⟩

/-- C4: on a cache miss where the external call fails or yields an unusable
product (`fetch_openfoodfacts` returns `ok none`), resolution returns
NotFound, performs the single external call, and leaves the products cache
exactly as it was (no negative caching). -/
theorem lookup_failure_no_cache_write (B : String) (products : List ProductRow)
    (ext : HttpResult) (now : String)
    (hmiss : get_cached_product products B = none)
    (hfail : fetch_openfoodfacts B ext now = .ok none) :
    lookup_product_local_first B products ext now = .ok (none, products, 1) := by
  unfold lookup_product_local_first
  rw [hmiss, hfail]

/-- Witness for C4: a network failure on an empty cache resolves to
NotFound with the cache untouched. -/
theorem lookup_failure_no_cache_write_witness :
    lookup_product_local_first "X" [] .reqError "T" = .ok (none, [], 1) :=
  lookup_failure_no_cache_write "X" [] .reqError "T" rfl rfl

/-- C1: for a non-empty barcode with no cache entry, the first resolution
performs exactly one external call and, on success, the returned entry is
in the cache when it returns; a second resolution then performs zero
external calls (whatever the network would do) and returns the same
data. -/
theorem resolve_miss_once_then_cached (B : String) (products : List ProductRow)
    (ext : HttpResult) (now : String) (hB : B ≠ "")
    (hmiss : get_cached_product products B = none)
    (res : Option ProductRow) (products' : List ProductRow) (n : Nat)
    (h : lookup_product_local_first B products ext now = .ok (res, products', n)) :
    n = 1 ∧
    ∀ e, res = some e →
      fetch_openfoodfacts B ext now = .ok (some e) ∧
      get_cached_product products' B = some e ∧
      ∀ ext2 now2, lookup_product_local_first B products' ext2 now2 =
        .ok (some e, products', 0) := by
  unfold lookup_product_local_first at h
  rw [hmiss] at h
  cases hf : fetch_openfoodfacts B ext now with
  | error er => rw [hf] at h; exact absurd h (by simp)
  | ok o =>
    rw [hf] at h
    cases o with
    | none =>
      simp only [Except.ok.injEq, Prod.mk.injEq] at h
      obtain ⟨h1, h2, h3⟩ := h
      refine ⟨h3.symm, fun e he => absurd (h1 ▸ he) (by simp)⟩
    | some f =>
      simp only [Except.ok.injEq, Prod.mk.injEq] at h
      obtain ⟨h1, h2, h3⟩ := h
      subst h2 h3
      refine ⟨rfl, fun e he => ?_⟩
      rw [← h1] at he
      cases he
      have hbc : f.barcode = B := fetch_ok_some_barcode hf
      have hget : get_cached_product (upsert_product f products) B = some f := by
        rw [← hbc]; exact get_upsert_self f products
      refine ⟨rfl, hget, fun ext2 now2 => ?_⟩
      unfold lookup_product_local_first
      rw [hget]

/-- Witness for C1: the spec's §8 scenario barcode resolved against an
empty cache, then resolved again with the network unavailable. -/
theorem resolve_miss_once_then_cached_witness :
    get_cached_product [] "012345" = none ∧
    lookup_product_local_first "012345" [] scenResp "T" = .ok (some scenRow, [scenRow], 1) ∧
    lookup_product_local_first "012345" [scenRow] .reqError "X" =
      .ok (some scenRow, [scenRow], 0) := by
  have h := resolve_miss_once_then_cached "012345" [] scenResp "T" (by decide) rfl
    (some scenRow) [scenRow] 1 rfl
  exact ⟨rfl, rfl, (h.2 scenRow rfl).2.2 .reqError "X"⟩


/-- A value passing Python's `is None` test is the modelled `None`. -/
theorem isNull_eq {v : JVal} (h : isNull v = true) : v = .null := by
  cases v <;> simp [isNull] at h ⊢

/-- Every successful `add_scan` with a non-blank barcode responds 200 with
body `{ok: true, id, ts}` and appends exactly one row carrying the fresh
id, the request timestamp and the trimmed barcode. -/
theorem add_scan_ok_shape {data : List (String × JVal)} {st : Store}
    {ext : HttpResult} {now : String} {o : ScanOutcome}
    (hbar : scanBarcode data ≠ "")
    (h : add_scan data st ext now = .ok o) :
    o.status = 200 ∧
    o.body = .jobj (toJFields [("ok", .jbool true),
      ("id", .jint (st.scans.length + 1)), ("ts", .jstr now)]) ∧
    ∃ row : ScanRow, o.store.scans = st.scans ++ [row] ∧
      row.id = st.scans.length + 1 ∧ row.ts = now ∧ row.barcode = scanBarcode data := by
  simp only [add_scan] at h
  rw [if_neg (by simp [hbar])] at h
  split at h
  · cases hlr : lookup_product_local_first (scanBarcode data) st.products ext now with
    | error er => rw [hlr] at h; exact absurd h (by simp)
    | ok triple =>
      obtain ⟨res, products, n⟩ := triple
      rw [hlr] at h
      cases res with
      | some p => cases h; exact ⟨rfl, rfl, _, rfl, rfl, rfl, rfl⟩
      | none => cases h; exact ⟨rfl, rfl, _, rfl, rfl, rfl, rfl⟩
  · cases h; exact ⟨rfl, rfl, _, rfl, rfl, rfl, rfl⟩

/-- C3 (code bug): an HTTP 200 response with an `application/json` content
type whose body is not valid JSON makes `r.json()` raise; the exception is
not caught by `fetch_openfoodfacts` (whose `try` only wraps `requests.get`)
and propagates out of `lookup_product_local_first` and out of the
`POST /api/scan` handler, instead of degrading to NotFound as specified. -/
theorem fetch_malformed_json_raises :
    fetch_openfoodfacts "012345" malformedResp "T" = .error .jsonError ∧
    lookup_product_local_first "012345" [] malformedResp "T" = .error .jsonError ∧
    add_scan [("barcode", .jstr "012345")] ⟨[], []⟩ malformedResp "T" =
      .error .jsonError :=
  ⟨rfl, rfl, rfl⟩

/-- C7: a scan request whose barcode coerces and trims to the empty string
is rejected with 400 and body `{ok: false, error: "barcode is required"}`,
whatever the other fields hold, before any resolver call, external call or
insert: the store is returned exactly as it was. -/
theorem add_scan_blank_barcode_rejected (data : List (String × JVal)) (st : Store)
    (ext : HttpResult) (now : String) (h : scanBarcode data = "") :
    add_scan data st ext now = .ok ⟨400,
      .jobj (toJFields [("ok", .jbool false), ("error", .jstr "barcode is required")]),
      st, 0, 0⟩ := by
  simp only [add_scan]
  rw [if_pos (by simp [h])]

/-- Witness for C7: a whitespace-only barcode alongside other populated
fields, against a non-empty store. -/
theorem add_scan_blank_barcode_rejected_witness :
    add_scan [("barcode", .jstr "   "), ("name", .jstr "x"), ("calories", .jint 5)]
      ⟨[⟨1, "T0", "b", .null, .null, .null, .null, .null, .null⟩], [scenRow]⟩
      scenResp "T" =
    .ok ⟨400,
      .jobj (toJFields [("ok", .jbool false), ("error", .jstr "barcode is required")]),
      ⟨[⟨1, "T0", "b", .null, .null, .null, .null, .null, .null⟩], [scenRow]⟩, 0, 0⟩ :=
  add_scan_blank_barcode_rejected _ _ _ _ (by decide)

/-- C9 counterexample: a successful `POST /api/scan` whose response body is
`{ok: true, id, ts}` and does not contain the submitted barcode, refuting
the claimed `{ok, id, ts, barcode}` body. -/
theorem add_scan_response_lacks_barcode :
    add_scan [("barcode", .jstr "012345")] ⟨[], []⟩ .reqError "T" =
      .ok ⟨200, .jobj (toJFields [("ok", .jbool true), ("id", .jint 1), ("ts", .jstr "T")]),
        ⟨[⟨1, "T", "012345", .null, .null, .null, .null, .null, .null⟩], []⟩, 1, 1⟩ ∧
    jHasKey (.jobj (toJFields [("ok", .jbool true), ("id", .jint 1), ("ts", .jstr "T")]))
      "barcode" = false :=
  ⟨rfl, rfl⟩

/-- C9 (amended): every successful `POST /api/scan` responds 200 with body
exactly `{ok: true, id, ts}` — the generated id and the assigned timestamp
— and the body carries no `barcode` key. -/
theorem add_scan_response_shape (data : List (String × JVal)) (st : Store)
    (ext : HttpResult) (now : String) (o : ScanOutcome)
    (hbar : scanBarcode data ≠ "")
    (h : add_scan data st ext now = .ok o) :
    o.status = 200 ∧
    o.body = .jobj (toJFields [("ok", .jbool true),
      ("id", .jint (st.scans.length + 1)), ("ts", .jstr now)]) ∧
    jHasKey o.body "barcode" = false := by
  obtain ⟨h1, h2, -⟩ := add_scan_ok_shape hbar h
  exact ⟨h1, h2, by rw [h2]; rfl⟩

/-- Witness for C9 at a concrete request against a store already holding
one scan. -/
theorem add_scan_response_shape_witness :
    (add_scan [("barcode", .jstr "X")]
        ⟨[⟨1, "T0", "b", .null, .null, .null, .null, .null, .null⟩], []⟩ .reqError "T1" =
      .ok ⟨200, .jobj (toJFields [("ok", .jbool true), ("id", .jint 2), ("ts", .jstr "T1")]),
        ⟨[⟨1, "T0", "b", .null, .null, .null, .null, .null, .null⟩,
          ⟨2, "T1", "X", .null, .null, .null, .null, .null, .null⟩], []⟩, 1, 1⟩) ∧
    (⟨200, .jobj (toJFields [("ok", .jbool true), ("id", .jint 2), ("ts", .jstr "T1")]),
        ⟨[⟨1, "T0", "b", .null, .null, .null, .null, .null, .null⟩,
          ⟨2, "T1", "X", .null, .null, .null, .null, .null, .null⟩], []⟩, 1, 1⟩ : ScanOutcome).status = 200 ∧
    jHasKey (⟨200, .jobj (toJFields [("ok", .jbool true), ("id", .jint 2), ("ts", .jstr "T1")]),
        ⟨[⟨1, "T0", "b", .null, .null, .null, .null, .null, .null⟩,
          ⟨2, "T1", "X", .null, .null, .null, .null, .null, .null⟩], []⟩, 1, 1⟩ : ScanOutcome).body
      "barcode" = false := by
  have h := add_scan_response_shape [("barcode", .jstr "X")]
    ⟨[⟨1, "T0", "b", .null, .null, .null, .null, .null, .null⟩], []⟩ .reqError "T1"
    ⟨200, .jobj (toJFields [("ok", .jbool true), ("id", .jint 2), ("ts", .jstr "T1")]),
        ⟨[⟨1, "T0", "b", .null, .null, .null, .null, .null, .null⟩,
          ⟨2, "T1", "X", .null, .null, .null, .null, .null, .null⟩], []⟩, 1, 1⟩
    (by decide) rfl
  exact ⟨rfl, h.1, h.2.2⟩

/-- C10: the barcode value of a scan request is coerced with `str()` before
trimming, so every request whose barcode value has a non-blank string form
is accepted: the scan succeeds and the persisted row's barcode is the
trimmed string form of the value (e.g. `"None"` for JSON `null` and `"0"`
for the number `0`). -/
theorem add_scan_barcode_str_coercion (v : JVal) (data : List (String × JVal))
    (st : Store) (ext : HttpResult) (now : String) (o : ScanOutcome)
    (hv : dGet data "barcode" (.jstr "") = v)
    (hnb : pyStrip (pyStr v) ≠ "")
    (h : add_scan data st ext now = .ok o) :
    o.status = 200 ∧
    ∃ row : ScanRow, o.store.scans = st.scans ++ [row] ∧
      row.barcode = pyStrip (pyStr v) := by
  have hsb : scanBarcode data = pyStrip (pyStr v) := by
    unfold scanBarcode; rw [hv]
  obtain ⟨h1, -, row, hrow, -, -, hbc⟩ := add_scan_ok_shape (by rw [hsb]; exact hnb) h
  exact ⟨h1, row, hrow, by rw [hbc, hsb]⟩

/-- Witness for C10: `{"barcode": null}` persists the barcode `"None"`, and
the string form of the number `0` is `"0"`. -/
theorem add_scan_barcode_str_coercion_witness :
    (add_scan [("barcode", JVal.null)] ⟨[], []⟩ .reqError "T" =
      .ok ⟨200, .jobj (toJFields [("ok", .jbool true), ("id", .jint 1), ("ts", .jstr "T")]),
        ⟨[⟨1, "T", "None", .null, .null, .null, .null, .null, .null⟩], []⟩, 1, 1⟩) ∧
    (∃ row : ScanRow,
      [(⟨1, "T", "None", .null, .null, .null, .null, .null, .null⟩ : ScanRow)] =
        ([] : List ScanRow) ++ [row] ∧
      row.barcode = pyStrip (pyStr JVal.null)) ∧
    pyStrip (pyStr JVal.null) = "None" ∧
    pyStrip (pyStr (JVal.jint 0)) = "0" := by
  have h := add_scan_barcode_str_coercion JVal.null [("barcode", JVal.null)]
    ⟨[], []⟩ .reqError "T"
    ⟨200, .jobj (toJFields [("ok", .jbool true), ("id", .jint 1), ("ts", .jstr "T")]),
      ⟨[⟨1, "T", "None", .null, .null, .null, .null, .null, .null⟩], []⟩, 1, 1⟩
    rfl (by decide) rfl
  obtain ⟨-, row, hrow, hbc⟩ := h
  exact ⟨rfl, ⟨row, hrow, hbc⟩, rfl, rfl⟩

/-- C5 counterexample: in the request `{"barcode": "b", "name": null}` the
key `name` is present (bound to JSON `null`), not absent, yet the handler
still calls the resolver (`resolverCalls = 1`), because the trigger tests
the extracted values against `None`, which conflates an absent key with an
explicit `null`.  This refutes the "if and only if all six are absent"
phrasing. -/
theorem autofill_fires_on_present_null_field :
    dHasKey [("barcode", JVal.jstr "b"), ("name", JVal.null)] "name" = true ∧
    add_scan [("barcode", JVal.jstr "b"), ("name", JVal.null)] ⟨[], []⟩ .reqError "T" =
      .ok ⟨200, .jobj (toJFields [("ok", .jbool true), ("id", .jint 1), ("ts", .jstr "T")]),
        ⟨[⟨1, "T", "b", .null, .null, .null, .null, .null, .null⟩], []⟩, 1, 1⟩ :=
  ⟨rfl, rfl⟩

/-- C5 (amended): the recorder calls the resolver if and only if all six of
name, calories, protein, carbs, fat and image_url extract to `None` — that
is, each is absent from the request or bound to JSON `null` (`sixNull`).
When triggered, a successful resolution fills all six inserted fields from
the resolved entry, and a failed resolution still inserts the scan with all
six fields null; when not triggered, the scan is inserted exactly as sent
with no resolver call and no cache change. -/
theorem add_scan_autofill_policy (data : List (String × JVal)) (st : Store)
    (ext : HttpResult) (now : String) (o : ScanOutcome)
    (hbar : scanBarcode data ≠ "")
    (h : add_scan data st ext now = .ok o) :
    (sixNull data = false →
      o.resolverCalls = 0 ∧ o.extCalls = 0 ∧ o.store.products = st.products ∧
      o.store.scans = st.scans ++ [⟨st.scans.length + 1, now, scanBarcode data,
        dGet? data "name", dGet? data "calories", dGet? data "protein",
        dGet? data "carbs", dGet? data "fat", dGet? data "image_url"⟩]) ∧
    (sixNull data = true →
      o.resolverCalls = 1 ∧
      ∃ res products n,
        lookup_product_local_first (scanBarcode data) st.products ext now =
          .ok (res, products, n) ∧
        o.extCalls = n ∧ o.store.products = products ∧
        ((∃ p, res = some p ∧
            o.store.scans = st.scans ++ [⟨st.scans.length + 1, now, scanBarcode data,
              p.name, p.calories, p.protein, p.carbs, p.fat, p.image_url⟩]) ∨
         (res = none ∧
            o.store.scans = st.scans ++ [⟨st.scans.length + 1, now, scanBarcode data,
              .null, .null, .null, .null, .null, .null⟩]))) := by
  simp only [add_scan] at h
  rw [if_neg (by simp [hbar])] at h
  cases hsix : sixNull data with
  | false =>
    rw [hsix] at h
    simp only [Bool.false_eq_true, if_false] at h
    cases h
    exact ⟨fun _ => ⟨rfl, rfl, rfl, rfl⟩, fun hc => absurd hc (by simp)⟩
  | true =>
    rw [hsix] at h
    simp only [if_true] at h
    refine ⟨fun hc => absurd hc (by simp), fun _ => ?_⟩
    cases hlr : lookup_product_local_first (scanBarcode data) st.products ext now with
    | error er => rw [hlr] at h; exact absurd h (by simp)
    | ok triple =>
      obtain ⟨res, products, n⟩ := triple
      rw [hlr] at h
      cases res with
      | some p =>
        cases h
        exact ⟨rfl, some p, products, n, rfl, rfl, rfl, Or.inl ⟨p, rfl, rfl⟩⟩
      | none =>
        cases h
        refine ⟨rfl, none, products, n, rfl, rfl, rfl, Or.inr ⟨rfl, ?_⟩⟩
        have h6 : isNull (dGet? data "name") = true ∧ isNull (dGet? data "calories") = true ∧
            isNull (dGet? data "protein") = true ∧ isNull (dGet? data "carbs") = true ∧
            isNull (dGet? data "fat") = true ∧ isNull (dGet? data "image_url") = true := by
          have := hsix
          unfold sixNull at this
          simp only [Bool.and_eq_true] at this
          tauto
        obtain ⟨h1, h2, h3, h4, h5, h6'⟩ := h6
        rw [isNull_eq h1, isNull_eq h2, isNull_eq h3, isNull_eq h4, isNull_eq h5,
          isNull_eq h6']

/-- Witness for C5: one request with only a non-null `calories` (no
resolver call, inserted as sent) and one with barcode only (resolver
called, auto-fill from the spec scenario's external response). -/
theorem add_scan_autofill_policy_witness :
    (add_scan [("barcode", .jstr "b"), ("calories", .jint 5)] ⟨[], []⟩ scenResp "T" =
      .ok ⟨200, .jobj (toJFields [("ok", .jbool true), ("id", .jint 1), ("ts", .jstr "T")]),
        ⟨[⟨1, "T", "b", .null, .jint 5, .null, .null, .null, .null⟩], []⟩, 0, 0⟩) ∧
    (⟨200, .jobj (toJFields [("ok", .jbool true), ("id", .jint 1), ("ts", .jstr "T")]),
      ⟨[⟨1, "T", "b", .null, .jint 5, .null, .null, .null, .null⟩], []⟩, 0, 0⟩ :
        ScanOutcome).resolverCalls = 0 ∧
    (add_scan [("barcode", .jstr "012345")] ⟨[], []⟩ scenResp "T" =
      .ok ⟨200, .jobj (toJFields [("ok", .jbool true), ("id", .jint 1), ("ts", .jstr "T")]),
        ⟨[⟨1, "T", "012345", .jstr "Test Bar", .jint 200, .jint 5, .jint 20, .jint 8, .null⟩],
          [scenRow]⟩, 1, 1⟩) ∧
    (⟨200, .jobj (toJFields [("ok", .jbool true), ("id", .jint 1), ("ts", .jstr "T")]),
      ⟨[⟨1, "T", "012345", .jstr "Test Bar", .jint 200, .jint 5, .jint 20, .jint 8, .null⟩],
        [scenRow]⟩, 1, 1⟩ : ScanOutcome).resolverCalls = 1 := by
  have hA := (add_scan_autofill_policy [("barcode", .jstr "b"), ("calories", .jint 5)]
    ⟨[], []⟩ scenResp "T"
    ⟨200, .jobj (toJFields [("ok", .jbool true), ("id", .jint 1), ("ts", .jstr "T")]),
      ⟨[⟨1, "T", "b", .null, .jint 5, .null, .null, .null, .null⟩], []⟩, 0, 0⟩
    (by decide) rfl).1 rfl
  have hB := (add_scan_autofill_policy [("barcode", .jstr "012345")]
    ⟨[], []⟩ scenResp "T"
    ⟨200, .jobj (toJFields [("ok", .jbool true), ("id", .jint 1), ("ts", .jstr "T")]),
      ⟨[⟨1, "T", "012345", .jstr "Test Bar", .jint 200, .jint 5, .jint 20, .jint 8, .null⟩],
        [scenRow]⟩, 1, 1⟩
    (by decide) rfl).2 rfl
  exact ⟨rfl, hA.1, rfl, hB.1⟩

theorem charLe_trans : ∀ (a b c : List Char),
    charLe a b = true → charLe b c = true → charLe a c = true := by
  intro a
  induction a with
  | nil => intro b c _ _; rfl
  | cons x xs ih =>
    intro b c hab hbc
    cases b with
    | nil => simp [charLe] at hab
    | cons y ys =>
      cases c with
      | nil => simp [charLe] at hbc
      | cons z zs =>
        unfold charLe at hab hbc ⊢
        by_cases hxy : x = y
        · subst hxy
          rw [if_pos rfl] at hab
          by_cases hyz : x = z
          · subst hyz
            rw [if_pos rfl] at hbc ⊢
            exact ih ys zs hab hbc
          · rw [if_neg hyz] at hbc ⊢
            exact hbc
        · rw [if_neg hxy] at hab
          have hlt : x < y := of_decide_eq_true hab
          by_cases hyz : y = z
          · subst hyz
            rw [if_neg hxy]
            exact hab
          · rw [if_neg hyz] at hbc
            have hlt2 : y < z := of_decide_eq_true hbc
            have hxz : x < z := lt_trans hlt hlt2
            rw [if_neg (ne_of_lt hxz)]
            exact decide_eq_true hxz

theorem charLe_total : ∀ (a b : List Char), charLe a b = true ∨ charLe b a = true := by
  intro a
  induction a with
  | nil => intro b; left; rfl
  | cons x xs ih =>
    intro b
    cases b with
    | nil => right; rfl
    | cons y ys =>
      unfold charLe
      by_cases hxy : x = y
      · subst hxy
        rw [if_pos rfl, if_pos rfl]
        exact ih ys
      · rcases lt_or_gt_of_ne hxy with h | h
        · left; rw [if_neg hxy]; exact decide_eq_true h
        · right; rw [if_neg (Ne.symm hxy)]; exact decide_eq_true h

theorem scanDesc_trans {a b c : ScanRow} (h1 : scanDesc a b = true)
    (h2 : scanDesc b c = true) : scanDesc a c = true :=
  charLe_trans c.ts.data b.ts.data a.ts.data h2 h1

theorem scanDesc_total (a b : ScanRow) : scanDesc a b = true ∨ scanDesc b a = true :=
  charLe_total b.ts.data a.ts.data

theorem insertDesc_perm (r : ScanRow) (l : List ScanRow) :
    (insertDesc r l).Perm (r :: l) := by
  induction l with
  | nil => exact List.Perm.refl _
  | cons x xs ih =>
    unfold insertDesc
    by_cases h : scanDesc r x = true
    · rw [if_pos h]
    · rw [if_neg h]
      exact (ih.cons x).trans (List.Perm.swap r x xs)

theorem insertDesc_pairwise (r : ScanRow) (l : List ScanRow)
    (hl : l.Pairwise (fun a b => scanDesc a b = true)) :
    (insertDesc r l).Pairwise (fun a b => scanDesc a b = true) := by
  induction l with
  | nil => simp [insertDesc]
  | cons x xs ih =>
    rw [List.pairwise_cons] at hl
    obtain ⟨hx, hxs⟩ := hl
    unfold insertDesc
    by_cases h : scanDesc r x = true
    · rw [if_pos h]
      refine List.Pairwise.cons ?_ (List.Pairwise.cons hx hxs)
      intro y hy
      rcases List.mem_cons.mp hy with rfl | hy'
      · exact h
      · exact scanDesc_trans h (hx y hy')
    · rw [if_neg h]
      refine List.Pairwise.cons ?_ (ih hxs)
      intro y hy
      have hy2 : y ∈ r :: xs := (insertDesc_perm r xs).subset hy
      rcases List.mem_cons.mp hy2 with rfl | hy'
      · rcases scanDesc_total x y with h' | h'
        · exact h'
        · exact absurd h' h
      · exact hx y hy'

theorem sortDesc_perm (l : List ScanRow) : (sortDesc l).Perm l := by
  induction l with
  | nil => exact List.Perm.refl _
  | cons x xs ih =>
    unfold sortDesc
    exact (insertDesc_perm x (sortDesc xs)).trans (ih.cons x)

theorem sortDesc_pairwise (l : List ScanRow) :
    (sortDesc l).Pairwise (fun a b => scanDesc a b = true) := by
  induction l with
  | nil => exact List.Pairwise.nil
  | cons x xs ih =>
    unfold sortDesc
    exact insertDesc_pairwise x (sortDesc xs) ih

/-- C8: `GET /api/scans?date=D` (for a non-empty date string) returns at
most 200 rows, ordered by timestamp descending, each row's ten-character
timestamp date part equal to `D`; and whenever at most 200 rows match, the
result is exactly the matching rows. -/
theorem list_scans_date_query (scans : List ScanRow) (d : String) (hd : d ≠ "") :
    (list_scans scans (some d)).length ≤ 200 ∧
    (list_scans scans (some d)).Pairwise (fun a b => scanDesc a b = true) ∧
    (∀ r ∈ list_scans scans (some d), substr10 r.ts = d) ∧
    ((scans.filter (fun r => substr10 r.ts == d)).length ≤ 200 →
      (list_scans scans (some d)).Perm
        (scans.filter (fun r => substr10 r.ts == d))) := by
  simp only [list_scans]
  rw [if_neg (by simp [hd])]
  refine ⟨List.length_take_le 200 _, ?_, ?_, ?_⟩
  · exact List.Pairwise.sublist (List.take_sublist 200 _)
      (sortDesc_pairwise (scans.filter (fun r => substr10 r.ts == d)))
  · intro r hr
    have h1 : r ∈ sortDesc (scans.filter (fun r => substr10 r.ts == d)) :=
      List.Sublist.mem hr (List.take_sublist 200 _)
    have h2 : r ∈ scans.filter (fun r => substr10 r.ts == d) :=
      (sortDesc_perm _).subset h1
    exact beq_iff_eq.mp (List.mem_filter.mp h2).2
  · intro hlen
    have hlen2 : (sortDesc (scans.filter (fun r => substr10 r.ts == d))).length ≤ 200 := by
      rw [(sortDesc_perm _).length_eq]
      exact hlen
    rw [List.take_of_length_le hlen2]
    exact sortDesc_perm _

/-- Witness for C8: the sample table queried for 2024-01-01 returns exactly
its two matching rows, newest first. -/
theorem list_scans_date_query_witness :
    list_scans scansFx (some "2024-01-01") = [rowB, rowA] ∧
    (∀ r ∈ list_scans scansFx (some "2024-01-01"), substr10 r.ts = "2024-01-01") ∧
    (list_scans scansFx (some "2024-01-01")).length ≤ 200 := by
  have h := list_scans_date_query scansFx "2024-01-01" (by decide)
  exact ⟨rfl, h.2.2.1, h.1⟩

/-- C2 (modelled from the spec; the Event Broadcaster and `GET /api/stream`
are absent from `src/`): a successful `record` persists the scan row and
then publishes exactly one ScanEvent carrying its barcode.  After the call,
every subscriber registered before it has its queue extended by exactly
that one event; a client subscribing after the call starts with an empty
queue, so it never receives that event; and at every intermediate point of
the call, a subscriber queue differs from its pre-call state only if the
scan row is already persisted (publication strictly after durable
persistence). -/
theorem record_fanout_after_persist (st : Store) (b : Broadcaster) (row : ScanRow) :
    (runTrace (record_trace row) (st, b)).1.scans = st.scans ++ [row] ∧
    (∀ i, (runTrace (record_trace row) (st, b)).2.queues.get? i =
      (b.queues.get? i).map (fun q => q ++ [row.barcode])) ∧
    ((subscribe (runTrace (record_trace row) (st, b)).2).1.queues.get?
      (subscribe (runTrace (record_trace row) (st, b)).2).2 = some []) ∧
    (∀ k i, (runTrace ((record_trace row).take k) (st, b)).2.queues.get? i ≠
        b.queues.get? i →
      row ∈ (runTrace ((record_trace row).take k) (st, b)).1.scans) := by
  refine ⟨rfl, ?_, ?_, ?_⟩
  · intro i
    simp [runTrace, record_trace, applyEff, publish, List.get?_map]
  · simp only [subscribe, runTrace, record_trace, applyEff, publish, List.foldl]
    exact List.get?_concat_length _ _
  · intro k i h
    match k with
    | 0 => exact absurd rfl h
    | 1 => exact absurd rfl h
    | (n + 2) => simp [runTrace, record_trace, applyEff]

/-- Witness for C2 with one pre-subscribed client holding an earlier event,
one pre-subscribed empty client, and one client subscribing afterwards. -/
theorem record_fanout_after_persist_witness :
    (runTrace (record_trace rowA) (⟨⟨[], []⟩, ⟨[["e0"], []]⟩⟩)).2.queues.get? 0 =
      some ["e0", "a"] ∧
    (subscribe (runTrace (record_trace rowA) (⟨⟨[], []⟩, ⟨[["e0"], []]⟩⟩)).2).1.queues.get?
      (subscribe (runTrace (record_trace rowA) (⟨⟨[], []⟩, ⟨[["e0"], []]⟩⟩)).2).2 = some [] ∧
    rowA ∈ (runTrace ((record_trace rowA).take 2) (⟨⟨[], []⟩, ⟨[["e0"], []]⟩⟩)).1.scans := by
  have h := record_fanout_after_persist ⟨[], []⟩ ⟨[["e0"], []]⟩ rowA
  refine ⟨(h.2.1 0).trans rfl, h.2.2.1, h.2.2.2 2 0 ?_⟩
  intro hc
  simp [runTrace, record_trace, applyEff, publish, rowA] at hc
